import Mathlib

/-!
Verification of the request-dispatch core of `tweety-rs` (`src/api/client.rs`).

The embedding models the two dispatch operations `send_request` and
`send_request_with_headers` of `TweetyClient`. External collaborators that the
Rust code calls into — the `url` crate's parser, serde's body serialization,
and the reqwest transport — are modelled as oracles carried by an `Env` value,
since their code is outside this repository. Everything the dispatcher itself
does (credential check, ordering of the checks, request construction, method
dispatch, response classification, message formatting) is translated directly
from the source.

To make "no network I/O is performed" provable, a dispatch returns, next to the
outcome the caller sees, the list of requests actually handed to the transport.
A call of Rust's panic machinery (the serialize `unwrap` and the
unsupported-method arm) is modelled as a distinct `fatal` outcome, disjoint by
constructor from both success values and typed errors.
-/

/-- JSON values, modelling `serde_json::Value`. Numbers are modelled as
integers; none of the dispatcher's control flow inspects numeric values. -/
inductive Json where
  | null
  | bool (b : Bool)
  | num (n : Int)
  | str (s : String)
  | arr (elems : List Json)
  | obj (fields : List (String × Json))

mutual

/-- Compact rendering of a JSON value, modelling serde_json's `Display`
(used by the dispatcher only to format `ApiError` messages). String escaping
beyond quoting is not modelled; no claim depends on escape sequences. -/
def Json.render : Json → String
  | .null => "null"
  | .bool true => "true"
  | .bool false => "false"
  | .num n => toString n
  | .str s => "\"" ++ s ++ "\""
  | .arr xs => "[" ++ Json.renderItems xs ++ "]"
  | .obj fs => "\x7b" ++ Json.renderFields fs ++ "\x7d"

/-- Comma-separated rendering of JSON array elements. -/
def Json.renderItems : List Json → String
  | [] => ""
  | [x] => Json.render x
  | x :: xs => Json.render x ++ "," ++ Json.renderItems xs

/-- Comma-separated rendering of JSON object fields. -/
def Json.renderFields : List (String × Json) → String
  | [] => ""
  | [(k, v)] => "\"" ++ k ++ "\":" ++ Json.render v
  | (k, v) :: fs => "\"" ++ k ++ "\":" ++ Json.render v ++ "," ++ Json.renderFields fs

end

/-- HTTP methods, modelling `reqwest::Method`: the four methods the dispatcher
supports, plus every other method (reqwest methods are open-ended). -/
inductive Method where
  | GET
  | POST
  | PUT
  | DELETE
  | other (name : String)
deriving DecidableEq

/-- The error enum `TweetyError` (`src/api/error.rs`), restricted to the
variants the dispatcher produces. Diagnostics are carried as strings, as the
Rust code stringifies the underlying library errors. -/
inductive TweetyError where
  | MissingCredentials
  | UrlParseError (diag : String)
  | NetworkError (diag : String)
  | JsonParseError (diag : String)
  | ApiError (message : String)
deriving DecidableEq

/-- What a dispatch call can do: return a success value, return a typed error
(Rust's `Result`), or abort the process (Rust's panic — the serialize `unwrap`
and the unsupported-method arm). -/
inductive Outcome (α : Type) where
  | ok (value : α)
  | err (e : TweetyError)
  | fatal (msg : String)
deriving DecidableEq

/-- The client struct: the four OAuth1 credential strings. -/
structure TweetyClient where
  consumer_key : String
  access_token : String
  consumer_key_secret : String
  access_token_secret : String
deriving DecidableEq

/-- `TweetyClient::new`. -/
def TweetyClient.new (consumer_key access_token consumer_key_secret access_token_secret : String) :
    TweetyClient :=
  { consumer_key := consumer_key
    access_token := access_token
    consumer_key_secret := consumer_key_secret
    access_token_secret := access_token_secret }

/-- `TweetyClient::is_initialized`: all four credential fields are non-empty. -/
def TweetyClient.is_initialized (c : TweetyClient) : Bool :=
  !c.consumer_key.isEmpty
    && !c.access_token.isEmpty
    && !c.consumer_key_secret.isEmpty
    && !c.access_token_secret.isEmpty

/-- OAuth1 signing material, modelling
`reqwest_oauth1::Secrets::new(consumer_key, consumer_key_secret).token(access_token, access_token_secret)`. -/
structure Secrets where
  consumer_key : String
  consumer_secret : String
  token : String
  token_secret : String
deriving DecidableEq

/-- The signed request handed to the transport: method, parsed URL, the OAuth1
signing material attached via `.oauth1(secrets)`, whether the
`Content-Type: application/json` header was set, and the attached body
(`none` when no `.body(..)` call was made). -/
structure OutboundRequest where
  method : Method
  url : String
  secrets : Secrets
  contentTypeJson : Bool
  body : Option String
deriving DecidableEq

/-- A received HTTP response as the dispatcher observes it: the status code,
the header map (modelled as an association list), and the result of
`response.json::<Value>()` — `error` carries the decoder diagnostic
(`err.to_string()`). -/
structure HttpResponse where
  status : Nat
  headers : List (String × String)
  bodyJson : Except String Json

/-- `ResponseWithHeaders`: the success payload of `send_request_with_headers`. -/
structure ResponseWithHeaders where
  body : Json
  headers : List (String × String)

/-- A caller-supplied body value (some `T : Serialize`), abstracted by the
result of `serde_json::to_string` on it: `ok` the JSON text, `error` the
serializer's diagnostic. -/
structure Body where
  serialized : Except String String

/-- Oracles for the external collaborators the dispatcher calls:
`parseUrl` models `Url::parse(url)` followed by `.to_string()` (so `ok`
carries the normalized URL text); `transport` models building a
`reqwest::Client` and sending the signed request, with `error` a transport
failure stringified by the code and `ok` a received response. -/
structure Env where
  parseUrl : String → Except String String
  transport : OutboundRequest → Except String HttpResponse

/-- `StatusCode::is_success()`: the status is in the 2xx range. -/
def statusIsSuccess (status : Nat) : Bool :=
  200 ≤ status && status < 300

/-- The `Display` of a status code as used in the `ApiError` format string.
The http crate renders the numeric code (followed by a canonical reason
phrase, which we do not model; no claim depends on the phrase, only on the
code digits being embedded). -/
def statusDisplay (status : Nat) : String :=
  toString status

/-- The Debug rendering of the response `HeaderMap`, as interpolated by the
headers variant's `ApiError` format string. -/
def headersDebug (headers : List (String × String)) : String :=
  "\x7b" ++ String.intercalate ", "
      (headers.map (fun kv => "\"" ++ kv.1 ++ "\": \"" ++ kv.2 ++ "\"")) ++ "\x7d"

/-- The secrets value both dispatch functions build from the client's
credentials. -/
def TweetyClient.secrets (c : TweetyClient) : Secrets :=
  { consumer_key := c.consumer_key
    consumer_secret := c.consumer_key_secret
    token := c.access_token
    token_secret := c.access_token_secret }

/-- The `json_body` computation both dispatch functions perform:
`json_body` starts empty and, when a body is supplied, becomes
`serde_json::to_string(&body).unwrap()` — `error` here means the `unwrap`
panics with the serializer's diagnostic. -/
def serializeStep (body : Option Body) : Except String String :=
  match body with
  | none => .ok ""
  | some b =>
    match b.serialized with
    | .ok s => .ok s
    | .error e => .error e

/-- The method-dispatch `match` both functions perform: POST sets the JSON
content type and attaches the serialized body; GET, DELETE and PUT attach no
body; any other method falls to the panicking arm (`none`). -/
def buildRequest (secrets : Secrets) (parsed_url : String) (method : Method)
    (json_body : String) : Option OutboundRequest :=
  match method with
  | .POST =>
    some { method := .POST, url := parsed_url, secrets := secrets,
           contentTypeJson := true, body := some json_body }
  | .GET =>
    some { method := .GET, url := parsed_url, secrets := secrets,
           contentTypeJson := false, body := none }
  | .DELETE =>
    some { method := .DELETE, url := parsed_url, secrets := secrets,
           contentTypeJson := false, body := none }
  | .PUT =>
    some { method := .PUT, url := parsed_url, secrets := secrets,
           contentTypeJson := false, body := none }
  | .other _ => none

/-- A dispatch result in the model: the outcome the caller sees together with
the list of requests actually sent over the network (empty iff no network I/O
occurred). -/
structure Dispatched (α : Type) where
  outcome : Outcome α
  sent : List OutboundRequest

/-- `TweetyClient::send_request`, translated step for step from the source:
credential check, URL parse, secrets construction, body serialization with
`unwrap`, method dispatch (panicking on unsupported methods), one network
send, then response classification. -/
def TweetyClient.send_request (c : TweetyClient) (env : Env) (url : String)
    (method : Method) (body : Option Body) : Dispatched Json :=
  if !c.is_initialized then
    { outcome := .err .MissingCredentials, sent := [] }
  else
    match env.parseUrl url with
    | .error err => { outcome := .err (.UrlParseError err), sent := [] }
    | .ok parsed_url =>
      match serializeStep body with
      | .error e =>
        { outcome := .fatal ("called Result::unwrap on an Err value: " ++ e), sent := [] }
      | .ok json_body =>
        match buildRequest c.secrets parsed_url method json_body with
        | none => { outcome := .fatal "Method not allowed", sent := [] }
        | some req =>
          match env.transport req with
          | .error err => { outcome := .err (.NetworkError err), sent := [req] }
          | .ok response =>
            if statusIsSuccess response.status then
              match response.bodyJson with
              | .ok api_response => { outcome := .ok api_response, sent := [req] }
              | .error err => { outcome := .err (.JsonParseError err), sent := [req] }
            else
              match response.bodyJson with
              | .ok status_text =>
                { outcome := .err (.ApiError
                    ("HTTP " ++ statusDisplay response.status ++ ": "
                      ++ Json.render status_text)),
                  sent := [req] }
              | .error err => { outcome := .err (.JsonParseError err), sent := [req] }

/-- `TweetyClient::send_request_with_headers`, translated step for step from
the source. It differs from `send_request` only in the tail: on success the
header map is cloned before the body is consumed and returned next to the
parsed body; on a non-success status the header map is additionally
interpolated (Debug-formatted) into the `ApiError` message. -/
def TweetyClient.send_request_with_headers (c : TweetyClient) (env : Env) (url : String)
    (method : Method) (body : Option Body) : Dispatched ResponseWithHeaders :=
  if !c.is_initialized then
    { outcome := .err .MissingCredentials, sent := [] }
  else
    match env.parseUrl url with
    | .error err => { outcome := .err (.UrlParseError err), sent := [] }
    | .ok parsed_url =>
      match serializeStep body with
      | .error e =>
        { outcome := .fatal ("called Result::unwrap on an Err value: " ++ e), sent := [] }
      | .ok json_body =>
        match buildRequest c.secrets parsed_url method json_body with
        | none => { outcome := .fatal "Method not allowed", sent := [] }
        | some req =>
          match env.transport req with
          | .error err => { outcome := .err (.NetworkError err), sent := [req] }
          | .ok response =>
            if statusIsSuccess response.status then
              let headers := response.headers
              match response.bodyJson with
              | .ok api_response =>
                { outcome := .ok { body := api_response, headers := headers }, sent := [req] }
              | .error err => { outcome := .err (.JsonParseError err), sent := [req] }
            else
              let headers := response.headers
              match response.bodyJson with
              | .ok status_text =>
                { outcome := .err (.ApiError
                    ("HTTP " ++ statusDisplay response.status ++ ": "
                      ++ Json.render status_text ++ ":" ++ headersDebug headers)),
                  sent := [req] }
              | .error err => { outcome := .err (.JsonParseError err), sent := [req] }

/-- C2: `is_initialized` returns true iff all four credential fields are
non-empty strings. It is a pure function of the four fields alone. -/
theorem is_initialized_iff_all_nonempty (c : TweetyClient) :
    c.is_initialized = true ↔
      c.consumer_key ≠ "" ∧ c.access_token ≠ "" ∧
      c.consumer_key_secret ≠ "" ∧ c.access_token_secret ≠ "" := by
  simp [TweetyClient.is_initialized, Bool.eq_false_iff, String.isEmpty_iff, and_assoc]

/-- Helper: a client with any empty credential field is not initialized. -/
theorem is_initialized_false_of_empty_field (c : TweetyClient)
    (h : c.consumer_key = "" ∨ c.access_token = "" ∨
         c.consumer_key_secret = "" ∨ c.access_token_secret = "") :
    c.is_initialized = false := by
  have he : ("" : String).isEmpty = true := rfl
  rcases h with h | h | h | h <;> simp [TweetyClient.is_initialized, h, he]

/-- C1: whenever any of the four credential fields is the empty string, both
dispatch operations return `MissingCredentials` with no URL parsing, signing
or network I/O: the result is this constant for every environment (including
ones whose URL parser rejects the URL), URL, method and optional body, and
the list of sent requests is empty. -/
theorem dispatch_missing_credentials (c : TweetyClient) (env : Env)
    (url : String) (method : Method) (body bodyH : Option Body)
    (h : c.consumer_key = "" ∨ c.access_token = "" ∨
         c.consumer_key_secret = "" ∨ c.access_token_secret = "") :
    c.send_request env url method body =
      { outcome := .err .MissingCredentials, sent := [] } ∧
    c.send_request_with_headers env url method bodyH =
      { outcome := .err .MissingCredentials, sent := [] } := by
  have hinit := is_initialized_false_of_empty_field c h
  constructor <;>
    simp [TweetyClient.send_request, TweetyClient.send_request_with_headers, hinit]

/-- Environment whose URL parser rejects every input (as the url crate does
for `"not a url"`) and whose transport never succeeds. -/
def rejectingEnv : Env :=
  { parseUrl := fun _ => .error "relative URL without a base"
    transport := fun _ => .error "no network" }

/-- Witness for C1: a concrete client with an empty consumer key, dispatched
against an environment whose URL parser rejects the (invalid) URL. -/
theorem dispatch_missing_credentials_witness :
    (TweetyClient.new "" "at" "cks" "ats").consumer_key = "" ∧
    (TweetyClient.new "" "at" "cks" "ats").send_request rejectingEnv "not a url" .GET none =
      { outcome := .err .MissingCredentials, sent := [] } ∧
    (TweetyClient.new "" "at" "cks" "ats").send_request_with_headers rejectingEnv
        "not a url" .POST none =
      { outcome := .err .MissingCredentials, sent := [] } :=
  ⟨rfl,
   (dispatch_missing_credentials _ rejectingEnv "not a url" .GET none none (Or.inl rfl)).1,
   (dispatch_missing_credentials _ rejectingEnv "not a url" .POST none none (Or.inl rfl)).2⟩

/-- C3: with all four credential fields non-empty and a URL the parser
rejects, both dispatch operations return `UrlParseError` carrying the
parser's diagnostic, and no network call is made. -/
theorem dispatch_url_parse_error (c : TweetyClient) (env : Env)
    (url : String) (method : Method) (body bodyH : Option Body) (diag : String)
    (hc : c.is_initialized = true)
    (hp : env.parseUrl url = .error diag) :
    c.send_request env url method body =
      { outcome := .err (.UrlParseError diag), sent := [] } ∧
    c.send_request_with_headers env url method bodyH =
      { outcome := .err (.UrlParseError diag), sent := [] } := by
  constructor <;>
    simp [TweetyClient.send_request, TweetyClient.send_request_with_headers, hc, hp]

/-- Witness for C3: a fully populated client and the invalid URL
`"not a url"` under `rejectingEnv`. -/
theorem dispatch_url_parse_error_witness :
    (TweetyClient.new "ck" "at" "cks" "ats").is_initialized = true ∧
    (TweetyClient.new "ck" "at" "cks" "ats").send_request rejectingEnv "not a url" .GET none =
      { outcome := .err (.UrlParseError "relative URL without a base"), sent := [] } ∧
    (TweetyClient.new "ck" "at" "cks" "ats").send_request_with_headers rejectingEnv
        "not a url" .POST none =
      { outcome := .err (.UrlParseError "relative URL without a base"), sent := [] } :=
  ⟨rfl,
   (dispatch_url_parse_error (TweetyClient.new "ck" "at" "cks" "ats") rejectingEnv
     "not a url" .GET none none "relative URL without a base" rfl rfl).1,
   (dispatch_url_parse_error (TweetyClient.new "ck" "at" "cks" "ats") rejectingEnv
     "not a url" .POST none none "relative URL without a base" rfl rfl).2⟩

/-- A well-formed target URL used by concrete witnesses. -/
def okUrl : String := "https://api.x.com/2/tweets"

/-- A mocked HTTP 200 response with a rate-limit header and body `(id : 42)`. -/
def resp200 : HttpResponse :=
  { status := 200
    headers := [("x-rate-limit-remaining", "15")]
    bodyJson := .ok (.obj [("id", .num 42)]) }

/-- A mocked HTTP 403 response with body `(error : forbidden)`. -/
def resp403 : HttpResponse :=
  { status := 403
    headers := [("x-rate-limit-remaining", "0")]
    bodyJson := .ok (.obj [("error", .str "forbidden")]) }

/-- Environment whose URL parser accepts every URL unchanged and whose
transport answers `resp200`. -/
def ok200Env : Env :=
  { parseUrl := fun s => .ok s
    transport := fun _ => .ok resp200 }

/-- Environment whose URL parser accepts every URL unchanged and whose
transport answers `resp403`. -/
def err403Env : Env :=
  { parseUrl := fun s => .ok s
    transport := fun _ => .ok resp403 }

/-- C4: the spec mandates an explicit SerializationError result for a body
that cannot be serialized, with no process abort. The code instead calls
unwrap on the serialization result, so at a concrete fully-populated client,
valid URL and failing body, both dispatch operations abort the process (a
fatal outcome, which is by construction not a typed error value returned to
the caller). -/
theorem serialization_failure_aborts :
    ((TweetyClient.new "ck" "at" "cks" "ats").send_request ok200Env okUrl .POST
        (some { serialized := .error "key must be a string" })).outcome =
      .fatal "called Result::unwrap on an Err value: key must be a string" ∧
    ((TweetyClient.new "ck" "at" "cks" "ats").send_request_with_headers ok200Env okUrl .POST
        (some { serialized := .error "key must be a string" })).outcome =
      .fatal "called Result::unwrap on an Err value: key must be a string" :=
  ⟨rfl, rfl⟩

/-- Helper: once the credential check, URL parse, serialization and request
building all go through, `send_request` hands exactly that one request to the
transport, whatever the transport then answers. -/
theorem send_request_sent_eq (c : TweetyClient) (env : Env) (url parsed : String)
    (method : Method) (body : Option Body) (json_body : String) (req : OutboundRequest)
    (hc : c.is_initialized = true)
    (hp : env.parseUrl url = .ok parsed)
    (hs : serializeStep body = .ok json_body)
    (hb : buildRequest c.secrets parsed method json_body = some req) :
    (c.send_request env url method body).sent = [req] := by
  rcases htr : env.transport req with err | resp
  · simp [TweetyClient.send_request, hc, hp, hs, hb, htr]
  · rcases hbj : resp.bodyJson with e | v <;>
      by_cases hst : statusIsSuccess resp.status = true <;>
        simp [TweetyClient.send_request, hc, hp, hs, hb, htr, hbj, hst]

/-- Helper: the same fact for `send_request_with_headers`. -/
theorem send_request_with_headers_sent_eq (c : TweetyClient) (env : Env)
    (url parsed : String) (method : Method) (body : Option Body)
    (json_body : String) (req : OutboundRequest)
    (hc : c.is_initialized = true)
    (hp : env.parseUrl url = .ok parsed)
    (hs : serializeStep body = .ok json_body)
    (hb : buildRequest c.secrets parsed method json_body = some req) :
    (c.send_request_with_headers env url method body).sent = [req] := by
  rcases htr : env.transport req with err | resp
  · simp [TweetyClient.send_request_with_headers, hc, hp, hs, hb, htr]
  · rcases hbj : resp.bodyJson with e | v <;>
      by_cases hst : statusIsSuccess resp.status = true <;>
        simp [TweetyClient.send_request_with_headers, hc, hp, hs, hb, htr, hbj, hst]

/-- C5: for every dispatch that reaches the request-building step (credentials
populated, URL parsed, body serialized), the single outbound request carries,
for POST, the JSON content type and the serialized body; for GET, PUT and
DELETE it carries neither, even though the caller supplied a body. -/
theorem outbound_request_body_policy (c : TweetyClient) (env : Env)
    (url parsed : String) (b : Body) (s : String) (m : Method)
    (hc : c.is_initialized = true)
    (hp : env.parseUrl url = .ok parsed)
    (hs : b.serialized = .ok s)
    (hm : m = .GET ∨ m = .PUT ∨ m = .DELETE) :
    (c.send_request env url .POST (some b)).sent =
      [{ method := .POST, url := parsed, secrets := c.secrets,
         contentTypeJson := true, body := some s }] ∧
    (c.send_request_with_headers env url .POST (some b)).sent =
      [{ method := .POST, url := parsed, secrets := c.secrets,
         contentTypeJson := true, body := some s }] ∧
    (c.send_request env url m (some b)).sent =
      [{ method := m, url := parsed, secrets := c.secrets,
         contentTypeJson := false, body := none }] ∧
    (c.send_request_with_headers env url m (some b)).sent =
      [{ method := m, url := parsed, secrets := c.secrets,
         contentTypeJson := false, body := none }] := by
  have hser : serializeStep (some b) = .ok s := by simp [serializeStep, hs]
  refine ⟨?_, ?_, ?_, ?_⟩
  · exact send_request_sent_eq c env url parsed .POST (some b) s _ hc hp hser
      (by simp [buildRequest])
  · exact send_request_with_headers_sent_eq c env url parsed .POST (some b) s _ hc hp hser
      (by simp [buildRequest])
  · rcases hm with hm | hm | hm <;> subst hm <;>
      exact send_request_sent_eq c env url parsed _ (some b) s _ hc hp hser
        (by simp [buildRequest])
  · rcases hm with hm | hm | hm <;> subst hm <;>
      exact send_request_with_headers_sent_eq c env url parsed _ (some b) s _ hc hp hser
        (by simp [buildRequest])

/-- Witness for C5: a concrete client, the identity-parsing 200 environment,
and body text rendering to a small JSON object. -/
theorem outbound_request_body_policy_witness :
    (TweetyClient.new "ck" "at" "cks" "ats").is_initialized = true ∧
    ok200Env.parseUrl okUrl = .ok okUrl ∧
    ((TweetyClient.new "ck" "at" "cks" "ats").send_request ok200Env okUrl .POST
        (some { serialized := .ok "\x7b\"text\":\"hello\"\x7d" })).sent =
      [{ method := .POST, url := okUrl, secrets := (TweetyClient.new "ck" "at" "cks" "ats").secrets,
         contentTypeJson := true, body := some "\x7b\"text\":\"hello\"\x7d" }] ∧
    ((TweetyClient.new "ck" "at" "cks" "ats").send_request ok200Env okUrl .GET
        (some { serialized := .ok "\x7b\"text\":\"hello\"\x7d" })).sent =
      [{ method := .GET, url := okUrl, secrets := (TweetyClient.new "ck" "at" "cks" "ats").secrets,
         contentTypeJson := false, body := none }] :=
  ⟨rfl, rfl,
   (outbound_request_body_policy (TweetyClient.new "ck" "at" "cks" "ats") ok200Env okUrl okUrl
      { serialized := .ok "\x7b\"text\":\"hello\"\x7d" } "\x7b\"text\":\"hello\"\x7d" .GET
      rfl rfl rfl (Or.inl rfl)).1,
   (outbound_request_body_policy (TweetyClient.new "ck" "at" "cks" "ats") ok200Env okUrl okUrl
      { serialized := .ok "\x7b\"text\":\"hello\"\x7d" } "\x7b\"text\":\"hello\"\x7d" .GET
      rfl rfl rfl (Or.inl rfl)).2.2.1⟩

/-- C6: with populated credentials and a URL the parser accepts, dispatching
with any method outside GET, POST, PUT, DELETE is fatal (process-aborting):
neither a typed error value nor a success value is returned to the caller,
and no request reaches the network. -/
theorem unsupported_method_is_fatal (c : TweetyClient) (env : Env)
    (url : String) (name : String) (body bodyH : Option Body)
    (hc : c.is_initialized = true)
    (hp : ∃ parsed, env.parseUrl url = .ok parsed) :
    ((∃ msg, (c.send_request env url (.other name) body).outcome = .fatal msg) ∧
      (∀ e, (c.send_request env url (.other name) body).outcome ≠ .err e) ∧
      (∀ v, (c.send_request env url (.other name) body).outcome ≠ .ok v) ∧
      (c.send_request env url (.other name) body).sent = []) ∧
    ((∃ msg, (c.send_request_with_headers env url (.other name) bodyH).outcome = .fatal msg) ∧
      (∀ e, (c.send_request_with_headers env url (.other name) bodyH).outcome ≠ .err e) ∧
      (∀ v, (c.send_request_with_headers env url (.other name) bodyH).outcome ≠ .ok v) ∧
      (c.send_request_with_headers env url (.other name) bodyH).sent = []) := by
  obtain ⟨parsed, hp⟩ := hp
  have h1 : ∃ msg, c.send_request env url (.other name) body =
      { outcome := .fatal msg, sent := [] } := by
    rcases hser : serializeStep body with e | jb
    · exact ⟨"called Result::unwrap on an Err value: " ++ e,
        by simp [TweetyClient.send_request, hc, hp, hser]⟩
    · exact ⟨"Method not allowed",
        by simp [TweetyClient.send_request, hc, hp, hser, buildRequest]⟩
  have h2 : ∃ msg, c.send_request_with_headers env url (.other name) bodyH =
      { outcome := .fatal msg, sent := [] } := by
    rcases hser : serializeStep bodyH with e | jb
    · exact ⟨"called Result::unwrap on an Err value: " ++ e,
        by simp [TweetyClient.send_request_with_headers, hc, hp, hser]⟩
    · exact ⟨"Method not allowed",
        by simp [TweetyClient.send_request_with_headers, hc, hp, hser, buildRequest]⟩
  obtain ⟨m1, e1⟩ := h1
  obtain ⟨m2, e2⟩ := h2
  refine ⟨⟨⟨m1, by simp [e1]⟩, fun e h => ?_, fun v h => ?_, by simp [e1]⟩,
          ⟨⟨m2, by simp [e2]⟩, fun e h => ?_, fun v h => ?_, by simp [e2]⟩⟩
  · simp [e1] at h
  · simp [e1] at h
  · simp [e2] at h
  · simp [e2] at h

/-- Witness for C6: a concrete fully-populated client dispatching a PATCH
request against an accepting environment aborts. -/
theorem unsupported_method_is_fatal_witness :
    ∃ msg, ((TweetyClient.new "ck" "at" "cks" "ats").send_request ok200Env okUrl
        (.other "PATCH") none).outcome = .fatal msg :=
  (unsupported_method_is_fatal (TweetyClient.new "ck" "at" "cks" "ats") ok200Env okUrl
      "PATCH" none none rfl ⟨okUrl, rfl⟩).1.1

/-- C7: on a received 2xx response, `send_request` returns the parsed JSON
body as a success value when it parses, and a `JsonParseError` carrying the
decoder's diagnostic when it does not. -/
theorem success_status_classification (c : TweetyClient) (env : Env)
    (url : String) (m : Method) (body : Option Body) (resp : HttpResponse)
    (hc : c.is_initialized = true)
    (hp : ∃ parsed, env.parseUrl url = .ok parsed)
    (hs : ∃ jb, serializeStep body = .ok jb)
    (hm : m = .GET ∨ m = .POST ∨ m = .PUT ∨ m = .DELETE)
    (htr : ∀ r, env.transport r = .ok resp)
    (hst : statusIsSuccess resp.status = true) :
    (∀ v, resp.bodyJson = .ok v → (c.send_request env url m body).outcome = .ok v) ∧
    (∀ e, resp.bodyJson = .error e →
      (c.send_request env url m body).outcome = .err (.JsonParseError e)) := by
  obtain ⟨parsed, hp⟩ := hp
  obtain ⟨jb, hs⟩ := hs
  constructor <;> intro x hx <;>
    rcases hm with hm | hm | hm | hm <;> subst hm <;>
      simp [TweetyClient.send_request, hc, hp, hs, buildRequest, htr, hst, hx]

/-- Witness for C7: the mocked 200 transport with body `(id : 42)` yields
exactly that parsed value. -/
theorem success_status_classification_witness :
    ((TweetyClient.new "ck" "at" "cks" "ats").send_request ok200Env okUrl .GET none).outcome =
      .ok (.obj [("id", .num 42)]) :=
  (success_status_classification (TweetyClient.new "ck" "at" "cks" "ats") ok200Env okUrl
      .GET none resp200 rfl ⟨okUrl, rfl⟩ ⟨"", rfl⟩ (Or.inl rfl) (fun _ => rfl) rfl).1
    (.obj [("id", .num 42)]) rfl

/-- C8: on a received non-2xx response, the body is still parsed: an
unparsable body yields `JsonParseError`; a parsable one yields `ApiError`
whose message embeds the status code and the rendered error body (and, in
the headers variant, the Debug-rendered header set as well). -/
theorem error_status_classification (c : TweetyClient) (env : Env)
    (url : String) (m : Method) (body : Option Body) (resp : HttpResponse)
    (hc : c.is_initialized = true)
    (hp : ∃ parsed, env.parseUrl url = .ok parsed)
    (hs : ∃ jb, serializeStep body = .ok jb)
    (hm : m = .GET ∨ m = .POST ∨ m = .PUT ∨ m = .DELETE)
    (htr : ∀ r, env.transport r = .ok resp)
    (hst : statusIsSuccess resp.status = false) :
    (∀ e, resp.bodyJson = .error e →
      (c.send_request env url m body).outcome = .err (.JsonParseError e) ∧
      (c.send_request_with_headers env url m body).outcome = .err (.JsonParseError e)) ∧
    (∀ v, resp.bodyJson = .ok v →
      (c.send_request env url m body).outcome =
        .err (.ApiError ("HTTP " ++ statusDisplay resp.status ++ ": " ++ Json.render v)) ∧
      (c.send_request_with_headers env url m body).outcome =
        .err (.ApiError ("HTTP " ++ statusDisplay resp.status ++ ": " ++ Json.render v
          ++ ":" ++ headersDebug resp.headers))) := by
  obtain ⟨parsed, hp⟩ := hp
  obtain ⟨jb, hs⟩ := hs
  constructor <;> intro x hx <;> constructor <;>
    rcases hm with hm | hm | hm | hm <;> subst hm <;>
      simp [TweetyClient.send_request, TweetyClient.send_request_with_headers,
        hc, hp, hs, buildRequest, htr, hst, hx]

/-- Witness for C8: the mocked 403 transport with body `(error : forbidden)`
yields an ApiError message embedding both the code 403 and the body. -/
theorem error_status_classification_witness :
    ((TweetyClient.new "ck" "at" "cks" "ats").send_request err403Env okUrl .GET none).outcome =
      .err (.ApiError "HTTP 403: \x7b\"error\":\"forbidden\"\x7d") :=
  ((error_status_classification (TweetyClient.new "ck" "at" "cks" "ats") err403Env okUrl
      .GET none resp403 rfl ⟨okUrl, rfl⟩ ⟨"", rfl⟩ (Or.inl rfl) (fun _ => rfl) rfl).2
    (.obj [("error", .str "forbidden")]) rfl).1

/-- C9: on a received 2xx response with a parsable body,
`send_request_with_headers` succeeds with both the parsed body and the full
response header set (captured from the response before its body is consumed
for parsing). -/
theorem with_headers_success_payload (c : TweetyClient) (env : Env)
    (url : String) (m : Method) (body : Option Body) (resp : HttpResponse)
    (hc : c.is_initialized = true)
    (hp : ∃ parsed, env.parseUrl url = .ok parsed)
    (hs : ∃ jb, serializeStep body = .ok jb)
    (hm : m = .GET ∨ m = .POST ∨ m = .PUT ∨ m = .DELETE)
    (htr : ∀ r, env.transport r = .ok resp)
    (hst : statusIsSuccess resp.status = true) :
    ∀ v, resp.bodyJson = .ok v →
      (c.send_request_with_headers env url m body).outcome =
        .ok { body := v, headers := resp.headers } := by
  obtain ⟨parsed, hp⟩ := hp
  obtain ⟨jb, hs⟩ := hs
  intro v hv
  rcases hm with hm | hm | hm | hm <;> subst hm <;>
    simp [TweetyClient.send_request_with_headers, hc, hp, hs, buildRequest, htr, hst, hv]

/-- Witness for C9: the mocked 200 transport with a rate-limit header and
body `(id : 42)` yields both. -/
theorem with_headers_success_payload_witness :
    ((TweetyClient.new "ck" "at" "cks" "ats").send_request_with_headers ok200Env okUrl
        .GET none).outcome =
      .ok { body := .obj [("id", .num 42)], headers := [("x-rate-limit-remaining", "15")] } :=
  with_headers_success_payload (TweetyClient.new "ck" "at" "cks" "ats") ok200Env okUrl
      .GET none resp200 rfl ⟨okUrl, rfl⟩ ⟨"", rfl⟩ (Or.inl rfl) (fun _ => rfl) rfl
    (.obj [("id", .num 42)]) rfl

/-- The classification of an outcome, forgetting payloads. -/
inductive OutcomeKind where
  | ok
  | missingCredentials
  | urlParse
  | network
  | jsonParse
  | api
  | fatal
deriving DecidableEq

/-- The kind of an outcome. -/
def Outcome.kind {α : Type} : Outcome α → OutcomeKind
  | .ok _ => .ok
  | .err .MissingCredentials => .missingCredentials
  | .err (.UrlParseError _) => .urlParse
  | .err (.NetworkError _) => .network
  | .err (.JsonParseError _) => .jsonParse
  | .err (.ApiError _) => .api
  | .fatal _ => .fatal

/-- C10: the two dispatch operations agree up to the payload shape: for every
client, environment, URL, method and body they send the same requests, their
outcomes have the same kind, the MissingCredentials, UrlParseError,
NetworkError, JsonParseError and fatal outcomes agree exactly (payloads
included), ApiError arises for one iff it arises for the other, and on
success the plain variant's value is the body field of the headers variant's
value. -/
theorem dispatch_variants_agree (c : TweetyClient) (env : Env)
    (url : String) (m : Method) (body : Option Body) :
    (c.send_request env url m body).sent = (c.send_request_with_headers env url m body).sent ∧
    (c.send_request env url m body).outcome.kind =
      (c.send_request_with_headers env url m body).outcome.kind ∧
    ((c.send_request env url m body).outcome = .err .MissingCredentials ↔
      (c.send_request_with_headers env url m body).outcome = .err .MissingCredentials) ∧
    (∀ d, (c.send_request env url m body).outcome = .err (.UrlParseError d) ↔
      (c.send_request_with_headers env url m body).outcome = .err (.UrlParseError d)) ∧
    (∀ d, (c.send_request env url m body).outcome = .err (.NetworkError d) ↔
      (c.send_request_with_headers env url m body).outcome = .err (.NetworkError d)) ∧
    (∀ d, (c.send_request env url m body).outcome = .err (.JsonParseError d) ↔
      (c.send_request_with_headers env url m body).outcome = .err (.JsonParseError d)) ∧
    ((∃ msg, (c.send_request env url m body).outcome = .err (.ApiError msg)) ↔
      (∃ msg, (c.send_request_with_headers env url m body).outcome = .err (.ApiError msg))) ∧
    (∀ msg, (c.send_request env url m body).outcome = .fatal msg ↔
      (c.send_request_with_headers env url m body).outcome = .fatal msg) ∧
    (∀ r : ResponseWithHeaders,
      (c.send_request_with_headers env url m body).outcome = .ok r →
      (c.send_request env url m body).outcome = .ok r.body) ∧
    (∀ v, (c.send_request env url m body).outcome = .ok v →
      ∃ hd, (c.send_request_with_headers env url m body).outcome =
        .ok { body := v, headers := hd }) := by
  by_cases hinit : c.is_initialized = true
  · rcases hp : env.parseUrl url with d0 | parsed
    · simp [TweetyClient.send_request, TweetyClient.send_request_with_headers, hinit, hp,
        Outcome.kind]
    · rcases hs : serializeStep body with e0 | jb
      · simp [TweetyClient.send_request, TweetyClient.send_request_with_headers, hinit, hp,
          hs, Outcome.kind]
      · rcases hb : buildRequest c.secrets parsed m jb with _ | req
        · simp [TweetyClient.send_request, TweetyClient.send_request_with_headers, hinit, hp,
            hs, hb, Outcome.kind]
        · rcases htr : env.transport req with e0 | resp
          · simp [TweetyClient.send_request, TweetyClient.send_request_with_headers, hinit,
              hp, hs, hb, htr, Outcome.kind]
          · by_cases hst : statusIsSuccess resp.status = true <;>
              rcases hbj : resp.bodyJson with e1 | v1 <;>
                simp [TweetyClient.send_request, TweetyClient.send_request_with_headers,
                  hinit, hp, hs, hb, htr, hst, hbj, Outcome.kind]
  · have hinit' : c.is_initialized = false := Bool.eq_false_iff.mpr hinit
    simp [TweetyClient.send_request, TweetyClient.send_request_with_headers, hinit',
      Outcome.kind]

/-- Witness for C10: outcome kinds agree at a concrete dispatch. -/
theorem dispatch_variants_agree_witness :
    ((TweetyClient.new "ck" "at" "cks" "ats").send_request ok200Env okUrl .GET none).outcome.kind =
      ((TweetyClient.new "ck" "at" "cks" "ats").send_request_with_headers ok200Env okUrl
        .GET none).outcome.kind :=
  (dispatch_variants_agree (TweetyClient.new "ck" "at" "cks" "ats") ok200Env okUrl .GET none).2.1

/-- Witness for C2: a client with four non-empty fields is initialized. -/
theorem is_initialized_iff_all_nonempty_witness :
    (TweetyClient.new "ck" "at" "cks" "ats").is_initialized = true :=
  (is_initialized_iff_all_nonempty (TweetyClient.new "ck" "at" "cks" "ats")).mpr
    ⟨by decide, by decide, by decide, by decide⟩
